import Mathlib

/-!
Verification of the `nearai` repository front-end utilities:

* `src/hub/demo/src/utils/zod-fetch.ts` — a schema-validated fetch wrapper
  (`createZodFetcher`, `defaultFetcher`, the `Schema` capability union).
* the root layout module — document title metadata driven by a consumer-mode
  environment flag.

The TypeScript is embedded shallowly: promises that may reject become
`Except FetchError`, the ambient world (the network reachable through the
global `fetch` and the console log written by `console.error`) becomes an
explicit `World` state threaded through the default fetcher, and runtime
JavaScript values handed to the schema layer are modelled by `JsonValue`.
-/

/-- Runtime values that flow from a fetcher into a schema `parse` call:
the model universe for JavaScript values produced by `response.json()`. -/
inductive JsonValue where
  | null
  | bool (b : Bool)
  | num (n : Int)
  | str (s : String)
  | arr (elems : List JsonValue)
  | obj (fields : List (String × JsonValue))

/-- A validation error raised by the schema layer (zod's `ZodError`):
opaque to the wrapper, which never inspects or rewrites it. -/
structure ZodError where
  message : String

/-- Modelled from the spec: `statusCodeToTRPCErrorCode` is imported from
`./error`, a file that is not under `src/`. The spec describes it as an
external mapping from HTTP status codes to coarse error classifications,
with 4xx mapping to client-error classes and 5xx to server-error classes. -/
inductive TRPCErrorCode where
  | clientError
  | serverError
  | internalServerError

/-- Modelled from the spec: the status-to-classification mapping consumed by
`defaultFetcher` (4xx to a client-error class, 5xx to a server-error class,
anything else to a generic internal class). -/
def statusCodeToTRPCErrorCode (status : Nat) : TRPCErrorCode :=
  if 400 ≤ status && status < 500 then TRPCErrorCode.clientError
  else if 500 ≤ status && status < 600 then TRPCErrorCode.serverError
  else TRPCErrorCode.internalServerError

/-- The errors with which a wrapped call can reject:
a `TRPCError` built by `defaultFetcher` on a non-success status,
a raw JSON deserialization failure from `response.json()`,
or a `ZodError` propagated untouched from the schema layer. -/
inductive FetchError where
  | trpc (code : TRPCErrorCode) (message : String)
  | jsonSyntax (message : String)
  | zod (e : ZodError)

/-- An HTTP response as seen through the fetch API: its status code, and the
outcomes of reading its body once as JSON (`response.json()`) and once as
text (`response.text()`), each of which may reject. -/
structure Response where
  status : Nat
  jsonBody : Except String JsonValue
  textBody : Except String String

/-- Standard fetch semantics: `response.ok` holds exactly when the status
code is in the 200-299 range. -/
def Response.ok (r : Response) : Bool :=
  200 ≤ r.status && r.status < 300

/-- One `console.error(body)` entry: the diagnostic body was read either as
structured JSON or, on fallback, as unstructured text. -/
inductive LogEntry where
  | body (v : JsonValue)
  | text (t : String)

/-- The ambient world of `defaultFetcher`: the network reachable through the
global `fetch` (request arguments to the resulting response) and the console
log accumulated by `console.error`. -/
structure World (ρ : Type) where
  net : ρ → Response
  log : List LogEntry

/-- The embedding of `AnyFetcher`: a fetcher takes the request arguments
(of opaque type `ρ`), acts on a state `σ`, and either resolves with a runtime
value or rejects. -/
def Fetcher (σ ρ : Type) : Type :=
  σ → ρ → Except FetchError JsonValue × σ

/-- The embedding of `defaultFetcher` from `zod-fetch.ts`:
awaits `fetch(...args)`; if `response.ok` is false it best-effort reads the
body (`response.json().catch(() => response.text())`) inside a `try` whose
`catch` swallows everything, logs the body when one was obtained, and throws
a `TRPCError` whose code comes from `statusCodeToTRPCErrorCode` and whose
message interpolates the status; otherwise it resolves `response.json()`. -/
def defaultFetcher {ρ : Type} : Fetcher (World ρ) ρ := fun w args =>
  let response := w.net args
  if !response.ok then
    (Except.error (FetchError.trpc (statusCodeToTRPCErrorCode response.status)
        ("Request failed with status: " ++ toString response.status)),
     match response.jsonBody with
     | Except.ok v => { w with log := w.log ++ [LogEntry.body v] }
     | Except.error _ =>
       match response.textBody with
       | Except.ok t => { w with log := w.log ++ [LogEntry.text t] }
       | Except.error _ => w)
  else
    match response.jsonBody with
    | Except.ok v => (Except.ok v, w)
    | Except.error m => (Except.error (FetchError.jsonSyntax m), w)

/-- One variant of the `Schema` union type: an object exposing only
`parse(data)`. -/
structure ParseCapability (α : Type) where
  parse : JsonValue → Except ZodError α

/-- The other variant of the `Schema` union type: an object exposing
`passthrough()`, which returns an object exposing `parse(data)`. -/
structure PassthroughCapability (α : Type) where
  passthrough : Unit → ParseCapability α

/-- The embedding of the `Schema<TData>` union type from `zod-fetch.ts`. -/
inductive Schema (α : Type) where
  | withPassthrough (s : PassthroughCapability α)
  | parseOnly (s : ParseCapability α)

/-- The parse operation the wrapper selects for a schema: the passthrough
parser when the schema exposes one, the plain `parse` otherwise. Used only
to state theorems; the wrapper itself is `fetchWithZod`. -/
def Schema.selectedParse {α : Type} : Schema α → JsonValue → Except ZodError α
  | Schema.withPassthrough sc => (sc.passthrough ()).parse
  | Schema.parseOnly sc => sc.parse

/-- The embedding of the closure returned by `createZodFetcher` (called
`fetchWithZod` in the source's documentation): await the fetcher on the
forwarded arguments, then dispatch on `'passthrough' in schema` and parse
the resolved value; a rejection from the fetcher propagates unchanged, and
a `ZodError` thrown by `parse` propagates as a `FetchError.zod` rejection. -/
def fetchWithZod {σ ρ α : Type} (fetcher : Fetcher σ ρ) (schema : Schema α)
    (args : ρ) (s : σ) : Except FetchError α × σ :=
  match fetcher s args with
  | (Except.error e, s') => (Except.error e, s')
  | (Except.ok v, s') =>
    match schema with
    | Schema.withPassthrough sc =>
      (((sc.passthrough ()).parse v).mapError FetchError.zod, s')
    | Schema.parseOnly sc =>
      ((sc.parse v).mapError FetchError.zod, s')

/-- The embedding of `createZodFetcher(fetcher = defaultFetcher)`: the
factory takes an optional fetcher, falls back to `defaultFetcher` when none
is supplied, and returns the closure `fetchWithZod` bound once to that
fetcher. -/
def createZodFetcher {ρ α : Type} (fetcher : Option (Fetcher (World ρ) ρ))
    (schema : Schema α) (args : ρ) (w : World ρ) :
    Except FetchError α × World ρ :=
  fetchWithZod (fetcher.getD defaultFetcher) schema args w

/-- Instrumentation for counting transport invocations: wraps a pure
fetcher so that the state records, in order, the exact argument values of
every call made to it. -/
def recording {ρ : Type} (f : ρ → Except FetchError JsonValue) :
    Fetcher (List ρ) ρ := fun s args => (f args, s ++ [args])

/-- The diagnostic console output `defaultFetcher` produces for a failed
response: the JSON read's value when that read succeeds, otherwise the text
read's value when that read succeeds, otherwise nothing. Used to state
theorems about the console log. -/
def diagnosticLog (r : Response) : List LogEntry :=
  match r.jsonBody with
  | Except.ok v => [LogEntry.body v]
  | Except.error _ =>
    match r.textBody with
    | Except.ok t => [LogEntry.text t]
    | Except.error _ => []

/- ——— Layout shell (root layout module, `src/unnamed/part_000`) ——— -/

/-- The embedding of the module-level `title` constant: `"AI Assistant"`
when the `NEXT_PUBLIC_CONSUMER_MODE` environment flag is set, otherwise
`"AI Research Hub"`. -/
def title (consumerMode : Bool) : String :=
  if consumerMode then "AI Assistant" else "AI Research Hub"

/-- The title object of the exported `metadata`: a template string
interpolating the product title after a `%s` placeholder, and a default
used when no page title is supplied. -/
structure TitleTemplateMeta where
  template : String
  default : String

/-- The embedding of the exported `metadata.title` object from the root
layout. -/
def metadata (consumerMode : Bool) : TitleTemplateMeta :=
  { template := "%s | " ++ title consumerMode
  , default := title consumerMode }

/-- The embedding of the meta description rendered by `RootLayout`:
`"NEAR "` followed by the product title. -/
def metaDescription (consumerMode : Bool) : String :=
  "NEAR " ++ title consumerMode

/-- Modelled from the spec: the framework that consumes `metadata.title` is
not part of the repository; the spec says the template's placeholder is
replaced by the page title, composing as `"<page> | <product>"`. This
substitutes the page title for each `%s` occurrence in the template. -/
def fillTemplate (tpl : List Char) (page : String) : List Char :=
  match tpl with
  | '%' :: 's' :: rest => page.data ++ fillTemplate rest page
  | c :: rest => c :: fillTemplate rest page
  | [] => []

/-- Modelled from the spec: the rendered document title is the metadata
default when no page title is supplied, and the template with the page
title substituted when one is. -/
def renderTitle (consumerMode : Bool) (page : Option String) : String :=
  match page with
  | none => (metadata consumerMode).default
  | some p => String.mk (fillTemplate (metadata consumerMode).template.data p)

/- ——— Concrete objects used by witness theorems ——— -/

/-- A strict parse accepting exactly an object whose single field `hello`
holds a string, and returning that string. -/
def helloParse : JsonValue → Except ZodError String := fun v =>
  match v with
  | JsonValue.obj [("hello", JsonValue.str s)] => Except.ok s
  | _ => Except.error { message := "expected hello string field" }

/-- A parse-only capability built from `helloParse`. -/
def helloParseCap : ParseCapability String :=
  { parse := helloParse }

/-- A passthrough capability whose passthrough parser is `helloParse`. -/
def helloPassthroughCap : PassthroughCapability String :=
  { passthrough := fun _ => helloParseCap }

/-- A `Schema` exposing only strict `parse`. -/
def helloSchema : Schema String :=
  Schema.parseOnly helloParseCap

/-- A `Schema` exposing `passthrough()`. -/
def helloPassthroughSchema : Schema String :=
  Schema.withPassthrough helloPassthroughCap

/-- A world whose network answers every request with the given response and
whose console log starts empty. -/
def mkWorld (r : Response) : World Unit :=
  { net := fun _ => r, log := [] }

/-- A 404 response with a readable structured error body. -/
def resp404 : Response :=
  { status := 404
  , jsonBody := Except.ok (JsonValue.obj [("error", JsonValue.str "not found")])
  , textBody := Except.ok "not found" }

/-- A 200 response whose body satisfies `helloSchema`. -/
def resp200good : Response :=
  { status := 200
  , jsonBody := Except.ok (JsonValue.obj [("hello", JsonValue.str "world")])
  , textBody := Except.ok "ok" }

/-- A 200 response whose body violates `helloSchema` (`hello` is a number). -/
def resp200mismatch : Response :=
  { status := 200
  , jsonBody := Except.ok (JsonValue.obj [("hello", JsonValue.num 123)])
  , textBody := Except.ok "ok" }

/-- A 200 response whose body cannot be deserialized as JSON. -/
def resp200syntax : Response :=
  { status := 200
  , jsonBody := Except.error "Unexpected token < in JSON"
  , textBody := Except.ok "<html>oops" }

/-- A 500 response on which both body reads reject. -/
def resp500unreadable : Response :=
  { status := 500
  , jsonBody := Except.error "stream already consumed"
  , textBody := Except.error "stream already consumed" }

/-- A caller-supplied fetcher that resolves with a fixed value without ever
consulting the response status of the world's network. -/
def resolvingFetcher : Fetcher (World Unit) Unit := fun w _ =>
  (Except.ok (JsonValue.obj [("hello", JsonValue.str "world")]), w)

/- ——— Helper lemmas shared by the claim theorems ——— -/

/-- On a non-success status, `defaultFetcher` rejects with the `TRPCError`
built from the status and appends the best-effort diagnostic body to the
console log. -/
theorem defaultFetcher_eq_of_not_ok {ρ : Type} (w : World ρ) (args : ρ)
    (h : (w.net args).ok = false) :
    defaultFetcher w args =
      (Except.error (FetchError.trpc (statusCodeToTRPCErrorCode (w.net args).status)
          ("Request failed with status: " ++ toString (w.net args).status)),
       { w with log := w.log ++ diagnosticLog (w.net args) }) := by
  unfold defaultFetcher diagnosticLog
  simp only [h, Bool.not_false, if_pos]
  cases hj : (w.net args).jsonBody with
  | ok v => rfl
  | error m =>
    cases ht : (w.net args).textBody with
    | ok t => rfl
    | error m' => simp

/-- On a success status, `defaultFetcher` resolves with the JSON body when
that read succeeds. -/
theorem defaultFetcher_eq_of_ok {ρ : Type} (w : World ρ) (args : ρ) (v : JsonValue)
    (hok : (w.net args).ok = true) (hbody : (w.net args).jsonBody = Except.ok v) :
    defaultFetcher w args = (Except.ok v, w) := by
  unfold defaultFetcher
  simp [hok, hbody]

/-- On a success status whose JSON read rejects, `defaultFetcher` rejects
with the raw deserialization error. -/
theorem defaultFetcher_eq_of_ok_badJson {ρ : Type} (w : World ρ) (args : ρ) (m : String)
    (hok : (w.net args).ok = true) (hbody : (w.net args).jsonBody = Except.error m) :
    defaultFetcher w args = (Except.error (FetchError.jsonSyntax m), w) := by
  unfold defaultFetcher
  simp [hok, hbody]

/-- When the fetcher resolves, `fetchWithZod` hands the resolved value to the
schema's selected parse and propagates the parse outcome. -/
theorem fetchWithZod_eq_of_resolve {σ ρ α : Type} (fetcher : Fetcher σ ρ)
    (schema : Schema α) (args : ρ) (s s' : σ) (v : JsonValue)
    (h : fetcher s args = (Except.ok v, s')) :
    fetchWithZod fetcher schema args s =
      ((schema.selectedParse v).mapError FetchError.zod, s') := by
  unfold fetchWithZod
  rw [h]
  cases schema with
  | withPassthrough sc => rfl
  | parseOnly sc => rfl

/-- When the fetcher rejects, `fetchWithZod` propagates the rejection
unchanged. -/
theorem fetchWithZod_eq_of_reject {σ ρ α : Type} (fetcher : Fetcher σ ρ)
    (schema : Schema α) (args : ρ) (s s' : σ) (e : FetchError)
    (h : fetcher s args = (Except.error e, s')) :
    fetchWithZod fetcher schema args s = (Except.error e, s') := by
  unfold fetchWithZod
  rw [h]

/- ——— Claim theorems ——— -/

/-- C1: for every transport call that returns a non-success status, a call
through the wrapper (built with the default transport) fails with the typed
`RequestFailed` error (`TRPCError`) whose classification is derived from the
HTTP status code via `statusCodeToTRPCErrorCode` and whose message includes
the numeric status code — for every response, hence regardless of whether
its body is readable as structured or unstructured text. -/
theorem wrapper_requestFailed_on_error_status {ρ α : Type}
    (schema : Schema α) (args : ρ) (w : World ρ)
    (h : (w.net args).ok = false) :
    (createZodFetcher none schema args w).1 =
      Except.error (FetchError.trpc (statusCodeToTRPCErrorCode (w.net args).status)
        ("Request failed with status: " ++ toString (w.net args).status)) := by
  have hdf := defaultFetcher_eq_of_not_ok w args h
  have := fetchWithZod_eq_of_reject (defaultFetcher (ρ := ρ)) schema args w
    { w with log := w.log ++ diagnosticLog (w.net args) } _ hdf
  unfold createZodFetcher
  rw [Option.getD_none, this]

/-- Witness for C1 at a concrete input: a 404 response with a structured
body; the call fails with a client-error classification and a message
containing the status code 404. -/
theorem wrapper_requestFailed_on_error_status_witness :
    ((mkWorld resp404).net ()).ok = false ∧
    (createZodFetcher none helloSchema () (mkWorld resp404)).1 =
      Except.error (FetchError.trpc TRPCErrorCode.clientError
        "Request failed with status: 404") :=
  ⟨rfl, by
    rw [wrapper_requestFailed_on_error_status helloSchema () (mkWorld resp404) rfl]
    rfl⟩

/-- C2: for every transport call that returns a success status with a body
satisfying the supplied schema, the wrapper resolves with exactly the value
produced by the schema's selected parse of that body, unchanged. -/
theorem wrapper_resolves_parsed_value {ρ α : Type}
    (schema : Schema α) (args : ρ) (w : World ρ) (v : JsonValue) (d : α)
    (hok : (w.net args).ok = true)
    (hbody : (w.net args).jsonBody = Except.ok v)
    (hparse : schema.selectedParse v = Except.ok d) :
    (createZodFetcher none schema args w).1 = Except.ok d := by
  have hdf := defaultFetcher_eq_of_ok w args v hok hbody
  have hfz := fetchWithZod_eq_of_resolve (defaultFetcher (ρ := ρ)) schema args w w v hdf
  unfold createZodFetcher
  rw [Option.getD_none, hfz, hparse]
  rfl

/-- Witness for C2 at a concrete input: status 200 with body
`obj [hello ↦ str world]` and a schema requiring a string `hello` field;
the call resolves to the parsed value `"world"`. -/
theorem wrapper_resolves_parsed_value_witness :
    ((mkWorld resp200good).net ()).ok = true ∧
    ((mkWorld resp200good).net ()).jsonBody =
      Except.ok (JsonValue.obj [("hello", JsonValue.str "world")]) ∧
    Schema.selectedParse helloSchema (JsonValue.obj [("hello", JsonValue.str "world")]) =
      Except.ok "world" ∧
    (createZodFetcher none helloSchema () (mkWorld resp200good)).1 = Except.ok "world" :=
  ⟨rfl, rfl, rfl,
    wrapper_resolves_parsed_value helloSchema () (mkWorld resp200good)
      (JsonValue.obj [("hello", JsonValue.str "world")]) "world" rfl rfl rfl⟩

/-- C3: the wrapper selects the parsing mode by capability: when the
fetcher resolves with a value, a schema exposing `passthrough` has the body
parsed by the passthrough parser, and a parse-only schema has it parsed by
its strict `parse`. -/
theorem wrapper_selects_parse_by_capability {σ ρ α : Type}
    (fetcher : Fetcher σ ρ) (args : ρ) (s s' : σ) (v : JsonValue)
    (h : fetcher s args = (Except.ok v, s')) :
    (∀ pc : PassthroughCapability α,
      fetchWithZod fetcher (Schema.withPassthrough pc) args s =
        (((pc.passthrough ()).parse v).mapError FetchError.zod, s')) ∧
    (∀ sc : ParseCapability α,
      fetchWithZod fetcher (Schema.parseOnly sc) args s =
        ((sc.parse v).mapError FetchError.zod, s')) := by
  constructor
  · intro pc
    unfold fetchWithZod
    rw [h]
  · intro sc
    unfold fetchWithZod
    rw [h]

/-- Witness for C3 at a concrete input: a fetcher resolving with the
`hello ↦ world` object; under the passthrough-capable schema the value goes
through the passthrough parser, under the parse-only schema through `parse`. -/
theorem wrapper_selects_parse_by_capability_witness :
    resolvingFetcher (mkWorld resp200good) () =
      (Except.ok (JsonValue.obj [("hello", JsonValue.str "world")]), mkWorld resp200good) ∧
    fetchWithZod resolvingFetcher (Schema.withPassthrough helloPassthroughCap) ()
        (mkWorld resp200good) =
      (((helloPassthroughCap.passthrough ()).parse
          (JsonValue.obj [("hello", JsonValue.str "world")])).mapError FetchError.zod,
       mkWorld resp200good) ∧
    fetchWithZod resolvingFetcher (Schema.parseOnly helloParseCap) ()
        (mkWorld resp200good) =
      ((helloParseCap.parse
          (JsonValue.obj [("hello", JsonValue.str "world")])).mapError FetchError.zod,
       mkWorld resp200good) :=
  ⟨rfl,
    (wrapper_selects_parse_by_capability resolvingFetcher () (mkWorld resp200good)
      (mkWorld resp200good) (JsonValue.obj [("hello", JsonValue.str "world")]) rfl).1
      helloPassthroughCap,
    (wrapper_selects_parse_by_capability resolvingFetcher () (mkWorld resp200good)
      (mkWorld resp200good) (JsonValue.obj [("hello", JsonValue.str "world")]) rfl).2
      helloParseCap⟩

/-- C4: for every success-status response whose body fails the schema's
selected parse, the wrapper rejects with exactly the validation error the
schema layer raised, neither caught nor re-classified, and never resolves
with a value. -/
theorem wrapper_propagates_schema_error {ρ α : Type}
    (schema : Schema α) (args : ρ) (w : World ρ) (v : JsonValue) (e : ZodError)
    (hok : (w.net args).ok = true)
    (hbody : (w.net args).jsonBody = Except.ok v)
    (hparse : schema.selectedParse v = Except.error e) :
    (createZodFetcher none schema args w).1 = Except.error (FetchError.zod e) := by
  have hdf := defaultFetcher_eq_of_ok w args v hok hbody
  have hfz := fetchWithZod_eq_of_resolve (defaultFetcher (ρ := ρ)) schema args w w v hdf
  unfold createZodFetcher
  rw [Option.getD_none, hfz, hparse]
  rfl

/-- Witness for C4 at a concrete input: status 200 with body
`obj [hello ↦ num 123]` against a schema requiring a string `hello`; the
call fails with the schema layer's own validation error. -/
theorem wrapper_propagates_schema_error_witness :
    ((mkWorld resp200mismatch).net ()).ok = true ∧
    ((mkWorld resp200mismatch).net ()).jsonBody =
      Except.ok (JsonValue.obj [("hello", JsonValue.num 123)]) ∧
    Schema.selectedParse helloSchema (JsonValue.obj [("hello", JsonValue.num 123)]) =
      Except.error { message := "expected hello string field" } ∧
    (createZodFetcher none helloSchema () (mkWorld resp200mismatch)).1 =
      Except.error (FetchError.zod { message := "expected hello string field" }) :=
  ⟨rfl, rfl, rfl,
    wrapper_propagates_schema_error helloSchema () (mkWorld resp200mismatch)
      (JsonValue.obj [("hello", JsonValue.num 123)])
      { message := "expected hello string field" } rfl rfl rfl⟩

/-- C5: on every non-success-status response, `defaultFetcher` rejects with
the `TRPCError` built from the status — never with a body-read error — and
its console log grows by exactly the best-effort diagnostic body: the JSON
read's value when that read succeeds, else the text read's value when that
read succeeds, else nothing. -/
theorem defaultFetcher_diagnostic_then_throw {ρ : Type} (args : ρ) (w : World ρ)
    (h : (w.net args).ok = false) :
    (defaultFetcher w args).1 =
      Except.error (FetchError.trpc (statusCodeToTRPCErrorCode (w.net args).status)
        ("Request failed with status: " ++ toString (w.net args).status)) ∧
    (defaultFetcher w args).2.net = w.net ∧
    (defaultFetcher w args).2.log = w.log ++ diagnosticLog (w.net args) ∧
    (∀ v, (w.net args).jsonBody = Except.ok v →
      diagnosticLog (w.net args) = [LogEntry.body v]) ∧
    (∀ m t, (w.net args).jsonBody = Except.error m →
      (w.net args).textBody = Except.ok t →
      diagnosticLog (w.net args) = [LogEntry.text t]) ∧
    (∀ m m', (w.net args).jsonBody = Except.error m →
      (w.net args).textBody = Except.error m' →
      diagnosticLog (w.net args) = []) := by
  have hdf := defaultFetcher_eq_of_not_ok w args h
  refine ⟨by rw [hdf], by rw [hdf], by rw [hdf], ?_, ?_, ?_⟩
  · intro v hv
    unfold diagnosticLog
    rw [hv]
  · intro m t hm ht
    unfold diagnosticLog
    rw [hm, ht]
  · intro m m' hm hm'
    unfold diagnosticLog
    rw [hm, hm']

/-- Witness for C5 at a concrete input: a 404 response with a readable
structured body; the fetcher rejects with the typed error and logs the
structured body. -/
theorem defaultFetcher_diagnostic_then_throw_witness :
    ((mkWorld resp404).net ()).ok = false ∧
    (defaultFetcher (mkWorld resp404) ()).1 =
      Except.error (FetchError.trpc TRPCErrorCode.clientError
        "Request failed with status: 404") ∧
    (defaultFetcher (mkWorld resp404) ()).2.log =
      [LogEntry.body (JsonValue.obj [("error", JsonValue.str "not found")])] :=
  ⟨rfl,
    by
      rw [(defaultFetcher_diagnostic_then_throw () (mkWorld resp404) rfl).1]
      rfl,
    by
      rw [(defaultFetcher_diagnostic_then_throw () (mkWorld resp404) rfl).2.2.1]
      rfl⟩

/-- C6: `createZodFetcher` is a factory over an optional transport: with the
transport omitted the wrapper is `fetchWithZod` bound to `defaultFetcher`,
and with a transport supplied every call through the wrapper instance is
`fetchWithZod` bound to that same transport. -/
theorem createZodFetcher_factory_transport {ρ α : Type}
    (schema : Schema α) (args : ρ) (w : World ρ) :
    createZodFetcher none schema args w =
      fetchWithZod defaultFetcher schema args w ∧
    ∀ f : Fetcher (World ρ) ρ,
      createZodFetcher (some f) schema args w = fetchWithZod f schema args w :=
  ⟨rfl, fun _ => rfl⟩

/-- C7: every invocation of the wrapper calls the configured transport
exactly once with the caller's arguments forwarded verbatim: run against a
transport instrumented to record every call it receives, the recorded trace
grows by exactly the one entry `args`, whatever the transport's outcome and
whatever the schema. -/
theorem wrapper_calls_transport_exactly_once {ρ α : Type}
    (f : ρ → Except FetchError JsonValue) (schema : Schema α)
    (args : ρ) (s : List ρ) :
    (fetchWithZod (recording f) schema args s).2 = s ++ [args] := by
  unfold fetchWithZod recording
  cases hf : f args <;> cases schema <;> rfl

/-- C9: the function returned by `createZodFetcher` inspects no status
itself — whatever value the configured fetcher resolves with is handed
directly to the schema's selected parse, so a caller-supplied fetcher that
resolves (rather than rejects) yields the parse of that value. -/
theorem wrapper_parses_whatever_fetcher_resolves {ρ α : Type}
    (f : Fetcher (World ρ) ρ) (schema : Schema α) (args : ρ)
    (w w' : World ρ) (v : JsonValue)
    (h : f w args = (Except.ok v, w')) :
    createZodFetcher (some f) schema args w =
      ((schema.selectedParse v).mapError FetchError.zod, w') :=
  fetchWithZod_eq_of_resolve f schema args w w' v h

/-- Witness for C9 at a concrete input: the world's network reports a
non-success status 500, yet a caller-supplied fetcher that resolves anyway
makes the wrapper return the schema parse of the resolved value — not a
`RequestFailed` error. -/
theorem wrapper_parses_whatever_fetcher_resolves_witness :
    ((mkWorld resp500unreadable).net ()).ok = false ∧
    resolvingFetcher (mkWorld resp500unreadable) () =
      (Except.ok (JsonValue.obj [("hello", JsonValue.str "world")]),
       mkWorld resp500unreadable) ∧
    createZodFetcher (some resolvingFetcher) helloSchema ()
        (mkWorld resp500unreadable) =
      (Except.ok "world", mkWorld resp500unreadable) :=
  ⟨rfl, rfl, by
    rw [wrapper_parses_whatever_fetcher_resolves resolvingFetcher helloSchema ()
      (mkWorld resp500unreadable) (mkWorld resp500unreadable)
      (JsonValue.obj [("hello", JsonValue.str "world")]) rfl]
    rfl⟩

/-- C10: for a success-status response whose body cannot be deserialized as
JSON, the call through the wrapper (with the default transport) rejects with
the raw deserialization error — neither a `TRPCError` nor a schema
validation error. -/
theorem wrapper_raw_json_error_on_ok_status {ρ α : Type}
    (schema : Schema α) (args : ρ) (w : World ρ) (m : String)
    (hok : (w.net args).ok = true)
    (hbody : (w.net args).jsonBody = Except.error m) :
    createZodFetcher none schema args w =
      (Except.error (FetchError.jsonSyntax m), w) := by
  have hdf := defaultFetcher_eq_of_ok_badJson w args m hok hbody
  exact fetchWithZod_eq_of_reject defaultFetcher schema args w w
    (FetchError.jsonSyntax m) hdf

/-- Witness for C10 at a concrete input: status 200 whose JSON read rejects;
the call fails with the raw deserialization error. -/
theorem wrapper_raw_json_error_on_ok_status_witness :
    ((mkWorld resp200syntax).net ()).ok = true ∧
    ((mkWorld resp200syntax).net ()).jsonBody =
      Except.error "Unexpected token < in JSON" ∧
    createZodFetcher none helloSchema () (mkWorld resp200syntax) =
      (Except.error (FetchError.jsonSyntax "Unexpected token < in JSON"),
       mkWorld resp200syntax) :=
  ⟨rfl, rfl,
    wrapper_raw_json_error_on_ok_status helloSchema () (mkWorld resp200syntax)
      "Unexpected token < in JSON" rfl rfl⟩

/-- C8: the document title is a pure function of the consumer-mode flag and
the optional page title — the product title is `"AI Research Hub"` with the
flag unset and `"AI Assistant"` with it set, the rendered title is the
product title alone without a page title and `"<page> | <product>"` with
one, and the meta description is `"NEAR "` followed by the product title. -/
theorem layout_title_and_description :
    title false = "AI Research Hub" ∧
    title true = "AI Assistant" ∧
    renderTitle false none = "AI Research Hub" ∧
    renderTitle true none = "AI Assistant" ∧
    (∀ p : String, renderTitle false (some p) = p ++ " | AI Research Hub") ∧
    (∀ p : String, renderTitle true (some p) = p ++ " | AI Assistant") ∧
    (∀ b : Bool, metaDescription b = "NEAR " ++ title b) ∧
    metaDescription false = "NEAR AI Research Hub" ∧
    metaDescription true = "NEAR AI Assistant" :=
  ⟨rfl, rfl, rfl, rfl, fun _ => rfl, fun _ => rfl, fun _ => rfl, rfl, rfl⟩
